import Mathlib

/-!
Verification development for the iOS compliance scanner service.

The definitions below are a shallow embedding of the JavaScript source:
`server-with-caching.js` (guideline fetching, caching, HTTP handlers),
`pdf-generator.js` (paginated report rendering), and the AI enrichment
module (`analyzeWithAI`, `generateFixSuggestions`).  External effects
(the outbound HTTP request, the JSON parser, the language-model API) are
modelled as explicit parameters; timestamps are naturals (milliseconds).
-/

/-- Guideline text unit: one scraped or built-in item with a position index,
a title, and body text.  Mirrors the objects pushed in
`fetchAppleGuidelines` and returned by `fallbackGuidelines`. -/
structure GSection where
  idx : Nat
  title : String
  content : String
deriving DecidableEq

/-- The guideline source URL constant from `fetchAppleGuidelines`. -/
def appleGuidelinesURL : String :=
  "https://developer.apple.com/app-store/review/guidelines/"

/-- The fixed five-item built-in guideline set returned by
`fallbackGuidelines()` in `server-with-caching.js`. -/
def fallbackGuidelines : List GSection :=
  [ { idx := 1, title := "Safety",
      content := "Apps must be safe for users. Any content that is offensive, insensitive, upsetting, or is intended to disgust users will be rejected." },
    { idx := 2, title := "Performance",
      content := "Apps should include features, content, and UI that elevate them beyond a repackaged website. Apps should use APIs and frameworks for their intended purposes and indicate that integration in their app description." },
    { idx := 3, title := "Business",
      content := "There are many ways to monetize your app on the App Store. If your business model isn\x27t obvious, make sure to explain in its metadata and App Review notes." },
    { idx := 4, title := "Design",
      content := "Apple customers place a high value on products that are simple, refined, innovative, and easy to use. Keep these principles in mind as you work on your app\x27s design." },
    { idx := 5, title := "Legal",
      content := "Apps must comply with all legal requirements in any location where you make them available. It is your responsibility to understand and make sure your app conforms with all local laws." } ]

/-- A guideline document as produced by `fetchAppleGuidelines` and as
annotated by `getCachedGuidelines`: the JS object carries `lastUpdated`,
`url` and `sections`, and may in addition carry `error`, `cached`,
`stale` and `cacheAge` fields; absent fields are modelled as
`none`/`false`. -/
structure GuidelineDoc where
  lastUpdated : Nat
  url : String
  sections : List GSection
  error : Option String
  cached : Bool
  stale : Bool
  cacheAge : Option Nat
deriving DecidableEq

/-- The error annotation text of the fetcher's catch branch. -/
def fetchFailMsg : String := "Failed to fetch live guidelines, using fallback"

/-- Shallow embedding of `fetchAppleGuidelines` (`server-with-caching.js`
lines 87-120).  The outbound HTTP request plus the cheerio scrape is the
external boundary: it is modelled by `http`, which yields either the
scraped item list or a failure message.  On success the scraped items are
used if nonempty, otherwise the built-in fallback; the catch branch
returns the fallback annotated with an `error` field.  The function never
fails: its result type is `GuidelineDoc`, not an `Except`. -/
def fetchAppleGuidelines (now : Nat) (http : Except String (List GSection)) :
    GuidelineDoc :=
  match http with
  | Except.ok scraped =>
      { lastUpdated := now, url := appleGuidelinesURL,
        sections := if scraped.length > 0 then scraped else fallbackGuidelines,
        error := none, cached := false, stale := false, cacheAge := none }
  | Except.error _ =>
      { lastUpdated := now, url := appleGuidelinesURL,
        sections := fallbackGuidelines,
        error := some fetchFailMsg, cached := false, stale := false, cacheAge := none }

/-- The module-level mutable cache variables `guidelinesCache` and
`cacheTimestamp` of `server-with-caching.js`. -/
structure CacheState where
  guidelinesCache : Option GuidelineDoc
  cacheTimestamp : Option Nat
deriving DecidableEq

/-- `CACHE_DURATION = 24 * 60 * 60 * 1000` (24 hours in milliseconds). -/
def CACHE_DURATION : Nat := 24 * 60 * 60 * 1000

/-- The stale-serving annotation text of `getCachedGuidelines`. -/
def staleMsg : String := "Failed to fetch fresh guidelines, serving stale cache"

/-- The miss path of `getCachedGuidelines` (lines 166-182): await the
fetch; on success store the document and the captured `now`; on fetch
failure return an existing entry annotated `cached`/`stale`/`error`, or
propagate the error when no entry exists. -/
def cacheMissFill (st : CacheState) (now : Nat)
    (fetchRes : Except String GuidelineDoc) :
    Except String (GuidelineDoc × CacheState) :=
  match fetchRes with
  | Except.ok doc =>
      Except.ok (doc, { guidelinesCache := some doc, cacheTimestamp := some now })
  | Except.error e =>
      match st.guidelinesCache with
      | some doc =>
          Except.ok ({ doc with cached := true, stale := true, error := some staleMsg }, st)
      | none => Except.error e

/-- Shallow embedding of `getCachedGuidelines` (lines 154-183).  `now` is
the `Date.now()` captured at entry; `fetchRes` is the outcome of the
awaited `fetchAppleGuidelines()` call (a parameter, so that the cache
logic can be studied for an arbitrary fetcher outcome).  If the entry is
fresh it is returned annotated `cached := true` with a `cacheAge` in
minutes; otherwise the miss path runs. -/
def getCachedGuidelines (st : CacheState) (now : Nat)
    (fetchRes : Except String GuidelineDoc) :
    Except String (GuidelineDoc × CacheState) :=
  match st.guidelinesCache, st.cacheTimestamp with
  | some doc, some ts =>
      if now - ts < CACHE_DURATION then
        Except.ok ({ doc with cached := true, cacheAge := some ((now - ts) / 1000 / 60) }, st)
      else cacheMissFill st now fetchRes
  | _, _ => cacheMissFill st now fetchRes

/-- `getCachedGuidelines` composed with the real fetcher: the awaited call
is `fetchAppleGuidelines`, which always resolves (never throws), at some
fetch time `tFetch`, from the HTTP outcome `http`. -/
def getCachedGuidelinesReal (st : CacheState) (now tFetch : Nat)
    (http : Except String (List GSection)) :
    Except String (GuidelineDoc × CacheState) :=
  getCachedGuidelines st now (Except.ok (fetchAppleGuidelines tFetch http))

/-- HTTP response of the `POST /api/guidelines/refresh` handler: a 200
with the refreshed document, or a 500 with details. -/
inductive RefreshResp where
  | ok (doc : GuidelineDoc)
  | err (details : String)
deriving DecidableEq

/-- Shallow embedding of the `POST /api/guidelines/refresh` handler
(lines 217-225): always awaits a fetch; on success stores the document
and `Date.now()` (`now`) and responds 200; if the awaited call failed it
responds 500 and leaves the cache untouched (no fallback to the cache). -/
def refreshHandler (st : CacheState) (now : Nat)
    (fetchRes : Except String GuidelineDoc) : RefreshResp × CacheState :=
  match fetchRes with
  | Except.ok doc =>
      (RefreshResp.ok doc, { guidelinesCache := some doc, cacheTimestamp := some now })
  | Except.error e => (RefreshResp.err e, st)

/-- The refresh handler composed with the real fetcher. -/
def refreshHandlerReal (st : CacheState) (now tFetch : Nat)
    (http : Except String (List GSection)) : RefreshResp × CacheState :=
  refreshHandler st now (Except.ok (fetchAppleGuidelines tFetch http))

/-- A cached-state well-formedness fact that the program maintains: every
stored document was produced by `fetchAppleGuidelines`, hence has a
nonempty section list and carries no `stale` marking. -/
def CacheState.WF (st : CacheState) : Prop :=
  ∀ d, st.guidelinesCache = some d → d.sections ≠ [] ∧ d.stale = false

/-- Projection used to state cache-call results without existentials:
the returned document's `stale` flag and section-list emptiness, or
`none` when the call failed. -/
def getOkInfo (r : Except String (GuidelineDoc × CacheState)) :
    Option (Bool × Bool) :=
  match r with
  | Except.ok (d, _) => some (d.stale, d.sections.isEmpty)
  | Except.error _ => none

/-- Whether the cache holds a fresh entry at time `now` — the condition of
the early-return branch of `getCachedGuidelines`. -/
def isFresh (st : CacheState) (now : Nat) : Bool :=
  match st.guidelinesCache, st.cacheTimestamp with
  | some _, some ts => now - ts < CACHE_DURATION
  | _, _ => false

/-- Summary object of a structured greenlight scan result, as read by the
PDF generator (`scanResults.summary?.status`, `.critical`, `.warnings`,
`.info`). -/
structure ScanSummary where
  status : String
  critical : Nat
  warnings : Nat
  info : Nat
deriving DecidableEq

/-- One compliance finding, as consumed by the PDF generator and the
enrichment module: a severity string plus title, description, an
optional guideline reference, and an optional AI fix suggestion. -/
structure Finding where
  severity : String
  title : String
  description : String
  guideline : Option String
  fixSuggestion : Option String
deriving DecidableEq

/-- One AI recommendation (`aiAnalysis.recommendations` items in the PDF
generator). -/
structure Recommendation where
  title : String
  description : String
deriving DecidableEq

/-- The `aiAnalysis` object optionally present on scan results. -/
structure AIAnalysis where
  riskLevel : Option String
  recommendations : Option (List Recommendation)
deriving DecidableEq

/-- The canonical structured shape of a parsed greenlight JSON result, as
the rest of the program reads it. -/
structure ParsedScan where
  summary : Option ScanSummary
  findings : Option (List Finding)
  aiAnalysis : Option AIAnalysis
deriving DecidableEq

/-- The value bound to `scanResults` in the scan handlers of
`server-with-caching.js`: either the object produced by `JSON.parse` of
the scanner stdout, or — when parsing throws — the fallback object
`\x7b rawOutput, stderr, exitCode \x7d`. -/
inductive ScanResults where
  | structured (p : ParsedScan)
  | unparsed (rawOutput stderr : String) (exitCode : Int)
deriving DecidableEq

/-- Shallow embedding of the normalization in the scan handlers
(`server-with-caching.js` lines 256-267): `JSON.parse(result.stdout)` is
the external boundary, modelled by `parsed` (`some p` when the stdout
parses as the structured shape); on parse failure the fallback object is
built.  Total by construction: the try/catch means no input raises. -/
def normalizeScanOutput (parsed : Option ParsedScan)
    (stdout stderr : String) (exitCode : Int) : ScanResults :=
  match parsed with
  | some p => ScanResults.structured p
  | none => ScanResults.unparsed stdout stderr exitCode

/-- The `status` field actually present on the result object
(`summary?.status`), if any. -/
def ScanResults.statusField : ScanResults → Option String
  | ScanResults.structured p => p.summary.map ScanSummary.status
  | ScanResults.unparsed _ _ _ => none

/-- The `findings` field actually present on the result object, if any. -/
def ScanResults.findingsField : ScanResults → Option (List Finding)
  | ScanResults.structured p => p.findings
  | ScanResults.unparsed _ _ _ => none

/-- The `critical` count actually present (`summary?.critical`), if any. -/
def ScanResults.criticalField : ScanResults → Option Nat
  | ScanResults.structured p => p.summary.map ScanSummary.critical
  | ScanResults.unparsed _ _ _ => none

/-- The raw scanner text preserved on the fallback object (`rawOutput`). -/
def ScanResults.rawField : ScanResults → Option String
  | ScanResults.structured _ => none
  | ScanResults.unparsed raw _ _ => some raw

/-- The status as the PDF generator reads it:
`scanResults.summary?.status || 'UNKNOWN'`. -/
def ScanResults.effStatus (r : ScanResults) : String :=
  r.statusField.getD "UNKNOWN"

/-- The findings as the PDF generator reads them:
`scanResults.findings || []`. -/
def ScanResults.effFindings (r : ScanResults) : List Finding :=
  r.findingsField.getD []

/-- The `aiAnalysis?.riskLevel` read. -/
def ScanResults.riskLevelOf : ScanResults → Option String
  | ScanResults.structured p => p.aiAnalysis.bind AIAnalysis.riskLevel
  | ScanResults.unparsed _ _ _ => none

/-- The `aiAnalysis?.recommendations` read. -/
def ScanResults.recsOf : ScanResults → Option (List Recommendation)
  | ScanResults.structured p => p.aiAnalysis.bind AIAnalysis.recommendations
  | ScanResults.unparsed _ _ _ => none

/-- Number of findings whose `severity` equals `sev` — the tally the spec
calls authoritative. -/
def severityTally (sev : String) (fs : List Finding) : Nat :=
  (fs.filter fun f => f.severity == sev).length

/-- Attach an AI fix suggestion to a finding when the per-finding model
call succeeded; keep the finding untouched when it failed — the body of
the per-finding try/catch in `generateFixSuggestions`. -/
def applyFix (f : Finding) : Option String → Finding
  | some tip => { f with fixSuggestion := some tip }
  | none => f

/-- The per-finding loop of `generateFixSuggestions`: the language-model
call for the finding at overall position `i` is modelled by `ai i`
(`some text` on success, `none` on a per-finding failure). -/
def enrichFrom (ai : Nat → Option String) : Nat → List Finding → List Finding
  | _, [] => []
  | i, f :: fs => applyFix f (ai i) :: enrichFrom ai (i + 1) fs

/-- Shallow embedding of `generateFixSuggestions` (enrichment module
lines 107-159): an outer-catch total failure or a missing API key
returns the findings unchanged; otherwise each finding is processed in
order, gaining a `fixSuggestion` exactly when its model call succeeds.
Total by construction: every failure mode returns a findings list. -/
def generateFixSuggestions (totalFailure : Bool) (apiKey : Option String)
    (ai : Nat → Option String) (findings : List Finding) : List Finding :=
  if totalFailure then findings
  else
    match apiKey with
    | none => findings
    | some _ => enrichFrom ai 0 findings

/-- Result object of `analyzeWithAI`: an analysis summary that is always
produced, carrying an `error` note on any failure mode.  The findings
list is not an input or output of this function. -/
structure AnalysisOut where
  error : Option String
  riskLevel : String
deriving DecidableEq

/-- Outcome of the language-model request inside `analyzeWithAI`. -/
inductive AIReply where
  | failed
  | noJson
  | parsed (riskLevel : String)
deriving DecidableEq

/-- Shallow embedding of `analyzeWithAI` (enrichment module lines
25-102): no API key, a thrown request, and an unparseable reply each
yield an error-annotated analysis object; a parsed reply yields the
parsed analysis.  Total by construction; it neither receives nor returns
the findings list. -/
def analyzeWithAI (apiKey : Option String) (reply : AIReply) : AnalysisOut :=
  match apiKey with
  | none =>
      { error := some "No Anthropic API key found",
        riskLevel := "Unable to assess (no AI available)" }
  | some _ =>
      match reply with
      | AIReply.failed =>
          { error := some "AI analysis failed",
            riskLevel := "Unable to assess (AI error)" }
      | AIReply.noJson =>
          { error := some "Failed to parse AI response",
            riskLevel := "Unable to assess" }
      | AIReply.parsed risk => { error := none, riskLevel := risk }

/-- The scan findings paired with the separately-produced analysis, as
the enrichment step hands them onward. -/
structure EnrichedScan where
  findings : List Finding
  analysis : AnalysisOut
deriving DecidableEq

/-- The whole enrichment step: findings go through
`generateFixSuggestions`, the analysis is produced by `analyzeWithAI`;
neither failure mode escapes as an exception. -/
def enrichScan (totalFailure : Bool) (apiKey : Option String)
    (ai : Nat → Option String) (reply : AIReply)
    (findings : List Finding) : EnrichedScan :=
  { findings := generateFixSuggestions totalFailure apiKey ai findings,
    analysis := analyzeWithAI apiKey reply }

/-- The fields of a finding other than `fixSuggestion` — the frame that
enrichment must not touch. -/
def Finding.core (f : Finding) : String × String × String × Option String :=
  (f.severity, f.title, f.description, f.guideline)

/-- The 200 response body of `POST /api/scan/upload`: the (possibly
fallback) scan results together with the awaited guidelines document. -/
structure ScanOkResp where
  results : ScanResults
  guidelines : GuidelineDoc
deriving DecidableEq

/-- HTTP response of the scan-upload handler: a 200 report payload, or a
500 with an error label and details. -/
inductive ScanResp where
  | ok (r : ScanOkResp)
  | err (label details : String)
deriving DecidableEq

/-- Shallow embedding of the `POST /api/scan/upload` handler
(`server-with-caching.js` lines 247-284), after the scanner has produced
`stdout`/`stderr`/`exitCode` and `JSON.parse` has been attempted
(`parsed`).  The awaited `getCachedGuidelines()` outcome is
`guidelinesRes`; if it threw, control lands in the catch block, which
responds 500 with the label used by the source. -/
def scanUploadHandler (parsed : Option ParsedScan) (stdout stderr : String)
    (exitCode : Int) (guidelinesRes : Except String (GuidelineDoc × CacheState))
    (st : CacheState) : ScanResp × CacheState :=
  match guidelinesRes with
  | Except.ok (g, st') =>
      (ScanResp.ok { results := normalizeScanOutput parsed stdout stderr exitCode,
                     guidelines := g }, st')
  | Except.error e => (ScanResp.err "Scan failed" e, st)

/-- The scan-upload handler composed with the real cache and fetcher. -/
def scanUploadHandlerReal (parsed : Option ParsedScan) (stdout stderr : String)
    (exitCode : Int) (st : CacheState) (now tFetch : Nat)
    (http : Except String (List GSection)) : ScanResp × CacheState :=
  scanUploadHandler parsed stdout stderr exitCode
    (getCachedGuidelinesReal st now tFetch http) st

/-- The guidelines document carried by a scan response, when it is a 200. -/
def scanRespGuidelines : ScanResp → Option GuidelineDoc
  | ScanResp.ok r => some r.guidelines
  | ScanResp.err _ _ => none

/-- State of the PDF layout: completed pages (each an ordered block
list), the blocks of the page being filled, and the vertical cursor `y`.
Mirrors the `doc.addPage()` / `y` discipline of `pdf-generator.js`. -/
structure PageState (α : Type) where
  pages : List (List α)
  cur : List α
  y : Nat
deriving DecidableEq

/-- Draw a block on the current page and advance the cursor by its
height. -/
def pushBlock (b : α) (h : Nat) (st : PageState α) : PageState α :=
  { pages := st.pages, cur := st.cur ++ [b], y := st.y + h }

/-- `doc.addPage()` followed by `y = 50`: close the current page and open
a fresh one with the cursor at the top margin. -/
def breakPage (st : PageState α) : PageState α :=
  { pages := st.pages ++ [st.cur], cur := [], y := 50 }

/-- The page-break check of `pdf-generator.js`: `if (y > limit)` open a
new page.  Note it inspects only the cursor, not the upcoming block's
height. -/
def checkBreak (limit : Nat) (st : PageState α) : PageState α :=
  if st.y > limit then breakPage st else st

/-- A checked layout loop: for each block, run the cursor-only page-break
check, then place the block (the shape of the `findings.forEach` and
recommendations loops). -/
def layoutChecked (limit : Nat) (height : α → Nat) (st : PageState α) :
    List α → PageState α
  | [] => st
  | b :: bs => layoutChecked limit height (pushBlock b (height b) (checkBreak limit st)) bs

/-- Cursor advance of one finding block in `pdf-generator.js` lines
88-139: severity badge and title (30), description (its measured height
plus 10), optional guideline line (15), optional fix suggestion (12 plus
its measured height plus 15), separator (20).  Text measurement
(`doc.heightOfString`) is the external boundary, modelled by `descH` and
`fixH`. -/
def findingHeight (descH fixH : String → Nat) (f : Finding) : Nat :=
  30 + (descH f.description + 10)
    + (match f.guideline with | some _ => 15 | none => 0)
    + (match f.fixSuggestion with | some fix => 12 + fixH fix + 15 | none => 0)

/-- The rendered content regions of the report, one constructor per
discrete block the generator draws. -/
inductive RBlock where
  | headerB
  | execTitleB
  | statusBoxB
  | metricsB
  | riskB (s : String)
  | findingsTitleB
  | findingB (f : Finding)
  | recTitleB
  | recB (r : Recommendation)
  | footerB
deriving DecidableEq

/-- Cursor advance of each block kind, with text measurement abstracted
by `descH`/`fixH`/`recH`; the fixed advances are the literal `y +=`
amounts of `pdf-generator.js`. -/
def rblockHeight (descH fixH recH : String → Nat) : RBlock → Nat
  | RBlock.execTitleB => 30
  | RBlock.statusBoxB => 80
  | RBlock.metricsB => 30
  | RBlock.riskB _ => 45
  | RBlock.findingsTitleB => 30
  | RBlock.findingB f => findingHeight descH fixH f
  | RBlock.recTitleB => 30
  | RBlock.recB r => 18 + recH r.description + 20
  | _ => 0

/-- Shallow embedding of `generateCompliancePDF` as a block layout: the
header block occupies the top of page one with the cursor left at 175;
the summary section blocks are placed without page-break checks; each
finding runs the `y > 700` check then is placed; if an `aiAnalysis`
recommendations array is present, a `y > 650` check precedes its title
and each recommendation runs the `y > 700` check; finally `doc.addPage()`
unconditionally opens the footer page. -/
def renderPDF (descH fixH recH : String → Nat) (sr : ScanResults) :
    PageState RBlock :=
  let hgt := rblockHeight descH fixH recH
  let st0 : PageState RBlock := { pages := [], cur := [RBlock.headerB], y := 175 }
  let st1 := pushBlock RBlock.execTitleB (hgt RBlock.execTitleB) st0
  let st2 := pushBlock RBlock.statusBoxB (hgt RBlock.statusBoxB) st1
  let st3 := pushBlock RBlock.metricsB (hgt RBlock.metricsB) st2
  let st4 :=
    match sr.riskLevelOf with
    | some s => pushBlock (RBlock.riskB s) (hgt (RBlock.riskB s)) st3
    | none => st3
  let st5 := pushBlock RBlock.findingsTitleB (hgt RBlock.findingsTitleB) st4
  let st6 := layoutChecked 700 hgt st5 (sr.effFindings.map RBlock.findingB)
  let st7 :=
    match sr.recsOf with
    | some recs =>
        let stA := checkBreak 650 st6
        let stB := pushBlock RBlock.recTitleB (hgt RBlock.recTitleB) stA
        layoutChecked 700 hgt stB (recs.map RBlock.recB)
    | none => st6
  let st8 := breakPage st7
  { pages := st8.pages, cur := [RBlock.footerB], y := 350 }

/-- Concatenate a list of pages into one block sequence. -/
def flattenPages : List (List α) → List α
  | [] => []
  | p :: ps => p ++ flattenPages ps

/-- All blocks of a layout state in page order: completed pages
flattened, then the page being filled. -/
def flatBlocks (st : PageState α) : List α :=
  flattenPages st.pages ++ st.cur

/-- The report document's blocks in document order, as the generator
visits them. -/
def docBlocks (sr : ScanResults) : List RBlock :=
  [RBlock.headerB, RBlock.execTitleB, RBlock.statusBoxB, RBlock.metricsB]
  ++ (match sr.riskLevelOf with | some s => [RBlock.riskB s] | none => [])
  ++ [RBlock.findingsTitleB]
  ++ sr.effFindings.map RBlock.findingB
  ++ (match sr.recsOf with
      | some recs => RBlock.recTitleB :: recs.map RBlock.recB
      | none => [])
  ++ [RBlock.footerB]

/-- Monotonicity check for a list of naturals. -/
def isMonotoneNat : List Nat → Bool
  | [] => true
  | [_] => true
  | a :: b :: rest => a ≤ b && isMonotoneNat (b :: rest)

/-- Events of an interleaved execution at the cache boundary, each tagged
with the real time at which it runs: `callGet id t` is a
`getCachedGuidelines` invocation entering at time `t` (capturing
`now = t` and, on a miss, awaiting the fetch); `fetchDone id t` is that
invocation's awaited fetch resolving at time `t`, after which it stores
its captured `now`; `refreshDone t` is the refresh handler's fetch
resolving at time `t`, after which it stores `Date.now() = t`. -/
inductive CEv where
  | callGet (id : Nat) (t : Nat)
  | fetchDone (id : Nat) (t : Nat)
  | refreshDone (t : Nat)
deriving DecidableEq

/-- The real time at which an event runs. -/
def evTime : CEv → Nat
  | CEv.callGet _ t => t
  | CEv.fetchDone _ t => t
  | CEv.refreshDone t => t

/-- State of the interleaved execution: the module-level `cacheTimestamp`,
the in-flight miss-path calls with their captured `now`, and the log of
values successively stored into `cacheTimestamp`. -/
structure TraceState where
  cacheTimestamp : Option Nat
  pendingGets : List (Nat × Nat)
  stores : List Nat
deriving DecidableEq

/-- One event of the interleaved execution.  A `callGet` that sees a
fresh entry returns immediately; otherwise it goes pending with its
captured `now`.  A `fetchDone` for a pending call runs that call's
continuation `guidelinesCache = ...; cacheTimestamp = now`, storing the
`now` captured at entry.  A `refreshDone` stores the current time. -/
def stepEv (st : TraceState) : CEv → TraceState
  | CEv.callGet id t =>
      match st.cacheTimestamp with
      | some ts =>
          if t - ts < CACHE_DURATION then st
          else { st with pendingGets := st.pendingGets ++ [(id, t)] }
      | none => { st with pendingGets := st.pendingGets ++ [(id, t)] }
  | CEv.fetchDone id _ =>
      match st.pendingGets.find? (fun p => p.1 == id) with
      | some pr =>
          { cacheTimestamp := some pr.2,
            pendingGets := st.pendingGets.filter (fun p => p.1 != id),
            stores := st.stores ++ [pr.2] }
      | none => st
  | CEv.refreshDone t =>
      { st with cacheTimestamp := some t, stores := st.stores ++ [t] }

/-- Run an interleaved trace from an initial state. -/
def runTrace (st : TraceState) : List CEv → TraceState
  | [] => st
  | e :: es => runTrace (stepEv st e) es

/-- An atomic (non-overlapping) operation at the cache boundary: a
`getCachedGuidelines` call or a refresh, with its `now` and its fetch
outcome, run to completion before the next operation starts. -/
inductive CacheCall where
  | getCall (now : Nat) (fetchRes : Except String GuidelineDoc)
  | refreshCall (now : Nat) (fetchRes : Except String GuidelineDoc)

/-- The `Date.now()` of an atomic call. -/
def callNow : CacheCall → Nat
  | CacheCall.getCall n _ => n
  | CacheCall.refreshCall n _ => n

/-- State transition of one atomic call. -/
def applyCall (st : CacheState) : CacheCall → CacheState
  | CacheCall.getCall now fr =>
      match getCachedGuidelines st now fr with
      | Except.ok (_, st') => st'
      | Except.error _ => st
  | CacheCall.refreshCall now fr => (refreshHandler st now fr).2

/-- Run a sequence of atomic calls. -/
def runCalls (st : CacheState) : List CacheCall → CacheState
  | [] => st
  | c :: cs => runCalls (applyCall st c) cs

/-- The calls' clock readings are non-decreasing and bounded below by
`t` — the monotone-real-time assumption for a sequential execution. -/
def monotoneCalls : Nat → List CacheCall → Prop
  | _, [] => True
  | t, c :: cs => t ≤ callNow c ∧ monotoneCalls (callNow c) cs

/-- The scan results carried by a scan response, when it is a 200. -/
def scanRespResults : ScanResp → Option ScanResults
  | ScanResp.ok r => some r.results
  | ScanResp.err _ _ => none

/-- On one page of the findings layout, the blocks before the last sum to
at most 650 units: the cursor was at most 700 when the last block was
placed and pages start at the 50-unit top margin. -/
def pageOkHeights (p : List Nat) : Prop := 50 + p.dropLast.sum ≤ 700

/-- Invariant of the findings layout loop over block heights: the cursor
equals 50 plus the current page's summed heights, and the current page
and every completed page satisfy `pageOkHeights`. -/
def layoutInv (st : PageState Nat) : Prop :=
  st.y = 50 + st.cur.sum ∧ pageOkHeights st.cur ∧ ∀ p ∈ st.pages, pageOkHeights p

/-- A concrete prior cache entry used in counterexamples and witnesses:
clearly distinct from anything the fetcher produces. -/
def oldDoc : GuidelineDoc :=
  { lastUpdated := 0, url := appleGuidelinesURL,
    sections := [ { idx := 1, title := "Old", content := "old content" } ],
    error := none, cached := false, stale := false, cacheAge := none }

/-- A concrete structured scanner output whose reported `critical` count
(5) disagrees with its findings tally (one CRITICAL finding). -/
def badScan : ParsedScan :=
  { summary := some { status := "BLOCKED", critical := 5, warnings := 0, info := 0 },
    findings := some [ { severity := "CRITICAL", title := "X",
                         description := "desc", guideline := none,
                         fixSuggestion := none } ],
    aiAnalysis := none }

/-- A concrete interleaving: call 1 enters at time 1000 and call 2 at
time 2000 (both miss on an empty cache); call 2's fetch resolves first
(time 2500) and stores 2000; call 1's fetch resolves later (time 3000)
and stores its captured 1000. -/
def ceTrace : List CEv :=
  [CEv.callGet 1 1000, CEv.callGet 2 2000, CEv.fetchDone 2 2500, CEv.fetchDone 1 3000]

/-- A list with an element is not judged empty. -/
theorem isEmpty_false_of_ne_nil {α : Type} (l : List α) (h : l ≠ []) :
    l.isEmpty = false := by
  cases l with
  | nil => exact absurd rfl h
  | cons a as => rfl

/-- The fetcher result never carries a `stale` marking. -/
theorem fetch_stale_false (tFetch : Nat) (http : Except String (List GSection)) :
    (fetchAppleGuidelines tFetch http).stale = false := by
  cases http <;> rfl

/-- The fetcher result's section list is never empty: scraped items when
any exist, the built-in fallback otherwise. -/
theorem fetch_sections_ne_nil (tFetch : Nat) (http : Except String (List GSection)) :
    (fetchAppleGuidelines tFetch http).sections ≠ [] := by
  cases http with
  | ok s =>
      by_cases h : s.length > 0
      · have hne : s ≠ [] := List.length_pos.mp h
        simpa [fetchAppleGuidelines, h] using hne
      · simp [fetchAppleGuidelines, h, fallbackGuidelines]
  | error e => simp [fetchAppleGuidelines, fallbackGuidelines]

/-- With the real fetcher, a cache read always succeeds and — from a
well-formed state — yields a document that is not marked stale and has a
nonempty section list. -/
theorem getReal_ok_exists (st : CacheState) (now tFetch : Nat)
    (http : Except String (List GSection)) (hwf : CacheState.WF st) :
    ∃ d st2, getCachedGuidelinesReal st now tFetch http = Except.ok (d, st2) ∧
      d.stale = false ∧ d.sections ≠ [] := by
  obtain ⟨gc, ct⟩ := st
  cases gc with
  | none =>
      exact ⟨_, _, rfl, fetch_stale_false tFetch http, fetch_sections_ne_nil tFetch http⟩
  | some doc =>
      obtain ⟨hne, hstale⟩ := hwf doc rfl
      cases ct with
      | none =>
          exact ⟨_, _, rfl, fetch_stale_false tFetch http, fetch_sections_ne_nil tFetch http⟩
      | some ts =>
          by_cases hf : now - ts < CACHE_DURATION
          · refine ⟨{ doc with cached := true, cacheAge := some ((now - ts) / 1000 / 60) },
              ⟨some doc, some ts⟩, ?_, hstale, hne⟩
            simp [getCachedGuidelinesReal, getCachedGuidelines, hf]
          · refine ⟨fetchAppleGuidelines tFetch http,
              ⟨some (fetchAppleGuidelines tFetch http), some now⟩, ?_,
              fetch_stale_false tFetch http, fetch_sections_ne_nil tFetch http⟩
            simp [getCachedGuidelinesReal, getCachedGuidelines, hf, cacheMissFill]

/-- Existential-free packaging of `getReal_ok_exists`. -/
theorem getReal_ok_info (st : CacheState) (now tFetch : Nat)
    (http : Except String (List GSection)) (hwf : CacheState.WF st) :
    getOkInfo (getCachedGuidelinesReal st now tFetch http) = some (false, false) := by
  obtain ⟨d, st2, heq, h1, h2⟩ := getReal_ok_exists st now tFetch http hwf
  rw [heq]
  simp [getOkInfo, h1, isEmpty_false_of_ne_nil d.sections h2]

/-- Claim C2, counterexample: with an expired prior entry and a failing
outbound fetch of the third-party source, `getCachedGuidelines` does not
return the prior entry annotated `cached=true, stale=true`; the fetcher
converts the failure into the built-in fallback document, which the cache
stores (overwriting the prior entry) and returns with no stale marking. -/
theorem C2_counterexample :
    getOkInfo (getCachedGuidelinesReal ⟨some oldDoc, some 0⟩ CACHE_DURATION CACHE_DURATION
        (Except.error "network down")) = some (false, false) ∧
    getCachedGuidelinesReal ⟨some oldDoc, some 0⟩ CACHE_DURATION CACHE_DURATION
        (Except.error "network down") =
      Except.ok (fetchAppleGuidelines CACHE_DURATION (Except.error "network down"),
        ⟨some (fetchAppleGuidelines CACHE_DURATION (Except.error "network down")),
          some CACHE_DURATION⟩) ∧
    (fetchAppleGuidelines CACHE_DURATION (Except.error "network down")).sections ≠
      oldDoc.sections ∧
    (fetchAppleGuidelines CACHE_DURATION (Except.error "network down")).stale = false := by
  refine ⟨rfl, rfl, by decide, rfl⟩

/-- Claim C2 (amended): the stale-serving branch of `getCachedGuidelines`
behaves as claimed only when the awaited `fetchAppleGuidelines()` call
itself fails: then, if an entry exists (even expired) it is returned
annotated `cached=true, stale=true` without raising, and only when no
entry exists does the call propagate the fetch error.  That branch is
unreachable in the composed program, because `fetchAppleGuidelines`
never fails — an HTTP-level fetch failure instead refills the cache with
the built-in fallback document (see the counterexample). -/
theorem C2_stale_branch_amended (st : CacheState) (now : Nat) (e : String)
    (hfresh : isFresh st now = false) :
    (∀ d, st.guidelinesCache = some d →
        getCachedGuidelines st now (Except.error e) =
          Except.ok ({ d with cached := true, stale := true, error := some staleMsg }, st)) ∧
    (st.guidelinesCache = none →
        getCachedGuidelines st now (Except.error e) = Except.error e) := by
  obtain ⟨gc, ct⟩ := st
  constructor
  · intro d hd
    cases gc with
    | none => cases hd
    | some d0 =>
        cases hd
        cases ct with
        | none => rfl
        | some ts =>
            have hnf : ¬ (now - ts < CACHE_DURATION) := by
              simpa [isFresh] using hfresh
            simp [getCachedGuidelines, hnf, cacheMissFill]
  · intro hnone
    cases gc with
    | some d0 => cases hnone
    | none => cases ct <;> rfl

/-- Claim C2 amended, witness at a concrete expired entry. -/
theorem C2_stale_branch_amended_witness :
    getCachedGuidelines ⟨some oldDoc, some 0⟩ CACHE_DURATION (Except.error "down") =
      Except.ok ({ oldDoc with cached := true, stale := true, error := some staleMsg },
        (⟨some oldDoc, some 0⟩ : CacheState)) :=
  (C2_stale_branch_amended ⟨some oldDoc, some 0⟩ CACHE_DURATION "down" (by decide)).1
    oldDoc rfl

/-- Claim C3, counterexample: when the outbound fetch of the third-party
guideline source fails, the `POST /api/guidelines/refresh` handler does
not raise an `UpstreamUnavailable` failure — it responds 200 with the
built-in fallback content (annotated with an `error` field). -/
theorem C3_counterexample :
    (refreshHandlerReal ⟨none, none⟩ 5000 4000 (Except.error "network down")).1 =
      RefreshResp.ok (fetchAppleGuidelines 4000 (Except.error "network down")) ∧
    (fetchAppleGuidelines 4000 (Except.error "network down")).sections =
      fallbackGuidelines ∧
    (fetchAppleGuidelines 4000 (Except.error "network down")).error =
      some fetchFailMsg := by
  exact ⟨rfl, rfl, rfl⟩

/-- Claim C3 (amended): the refresh handler always attempts a fetch and
would surface a failure of the awaited `fetchAppleGuidelines()` call as a
500 without falling back to the cache; but that call converts an
HTTP-level failure of the third-party source into the built-in fallback
document annotated with an `error` field, so such a failure yields a
successful refresh that stores and returns the fallback content. -/
theorem C3_forceRefresh_amended (st : CacheState) (now : Nat) :
    (∀ e, refreshHandler st now (Except.error e) = (RefreshResp.err e, st)) ∧
    (∀ tFetch msg,
        (refreshHandlerReal st now tFetch (Except.error msg)).1 =
          RefreshResp.ok (fetchAppleGuidelines tFetch (Except.error msg)) ∧
        (fetchAppleGuidelines tFetch (Except.error msg)).sections = fallbackGuidelines ∧
        (fetchAppleGuidelines tFetch (Except.error msg)).error = some fetchFailMsg ∧
        (refreshHandlerReal st now tFetch (Except.error msg)).2 =
          { guidelinesCache := some (fetchAppleGuidelines tFetch (Except.error msg)),
            cacheTimestamp := some now }) :=
  ⟨fun _ => rfl, fun _ _ => ⟨rfl, rfl, rfl, rfl⟩⟩

/-- Claim C10: the fetcher is total — for every outcome of the outbound
request it resolves to a document with a nonempty section list, either
the scraped items (when any) or exactly the fixed five-item built-in
fallback, the latter annotated with an `error` field exactly in the
failure case; consequently a cache read composed with it never fails and
never serves a stale-marked entry. -/
theorem C10_fetcher_total (tFetch : Nat) (http : Except String (List GSection)) :
    (fetchAppleGuidelines tFetch http).sections ≠ [] ∧
    fallbackGuidelines.length = 5 ∧
    (∀ s, http = Except.ok s → s ≠ [] →
        (fetchAppleGuidelines tFetch http).sections = s ∧
        (fetchAppleGuidelines tFetch http).error = none) ∧
    (∀ s, http = Except.ok s → s = [] →
        (fetchAppleGuidelines tFetch http).sections = fallbackGuidelines ∧
        (fetchAppleGuidelines tFetch http).error = none) ∧
    (∀ e, http = Except.error e →
        (fetchAppleGuidelines tFetch http).sections = fallbackGuidelines ∧
        (fetchAppleGuidelines tFetch http).error = some fetchFailMsg) ∧
    (∀ st now, CacheState.WF st →
        getOkInfo (getCachedGuidelinesReal st now tFetch http) = some (false, false)) := by
  refine ⟨fetch_sections_ne_nil tFetch http, rfl, ?_, ?_, ?_, ?_⟩
  · intro s hs hne
    subst hs
    have hpos : s.length > 0 := List.length_pos.mpr hne
    constructor <;> simp [fetchAppleGuidelines, hpos]
  · intro s hs hnil
    subst hs; subst hnil
    constructor <;> simp [fetchAppleGuidelines]
  · intro e he
    subst he
    exact ⟨rfl, rfl⟩
  · intro st now hwf
    exact getReal_ok_info st now tFetch http hwf

/-- Claim C10, witness: a concrete failing fetch yields the fallback with
the error annotation, and a cache read over the empty cache still
succeeds with a non-stale, nonempty document. -/
theorem C10_fetcher_total_witness :
    (fetchAppleGuidelines 7 (Except.error "netfail")).sections = fallbackGuidelines ∧
    (fetchAppleGuidelines 7 (Except.error "netfail")).error = some fetchFailMsg ∧
    getOkInfo (getCachedGuidelinesReal ⟨none, none⟩ 9 7 (Except.error "netfail")) =
      some (false, false) := by
  obtain ⟨-, -, -, -, h5, h6⟩ := C10_fetcher_total 7 (Except.error "netfail")
  obtain ⟨ha, hb⟩ := h5 "netfail" rfl
  exact ⟨ha, hb, h6 ⟨none, none⟩ 9 (by intro d hd; cases hd)⟩

/-- Claim C4, counterexample: on unparseable scanner output the fallback
object carries no `status` field (in particular not `UNKNOWN`) and no
`findings` field (in particular not an empty list). -/
theorem C4_counterexample :
    (normalizeScanOutput none "greenlight: segfault" "boom" 1).statusField = none ∧
    (normalizeScanOutput none "greenlight: segfault" "boom" 1).statusField ≠
      some "UNKNOWN" ∧
    (normalizeScanOutput none "greenlight: segfault" "boom" 1).findingsField = none := by
  refine ⟨rfl, by decide, rfl⟩

/-- Claim C4 (amended): normalization is total (the try/catch means every
input yields a value) and on parse failure produces the fallback object
that preserves the raw text under `rawOutput`; that object has no
`status` or `findings` fields at all — the `UNKNOWN` status and the empty
findings list arise only by defaulting at the consumer
(`summary?.status || UNKNOWN`, `findings || []` in the PDF generator). -/
theorem C4_normalizer_amended (stdout stderr : String) (exitCode : Int) :
    normalizeScanOutput none stdout stderr exitCode =
      ScanResults.unparsed stdout stderr exitCode ∧
    (normalizeScanOutput none stdout stderr exitCode).rawField = some stdout ∧
    (normalizeScanOutput none stdout stderr exitCode).statusField = none ∧
    (normalizeScanOutput none stdout stderr exitCode).findingsField = none ∧
    (normalizeScanOutput none stdout stderr exitCode).effStatus = "UNKNOWN" ∧
    (normalizeScanOutput none stdout stderr exitCode).effFindings = [] :=
  ⟨rfl, rfl, rfl, rfl, rfl, rfl⟩

/-- Claim C5, counterexample: a structured output reporting
`critical = 5` over a single CRITICAL finding is returned as-is — the
normalized counts are not recomputed from the findings and disagree with
their severity tally. -/
theorem C5_counterexample :
    normalizeScanOutput (some badScan) "out" "" 0 = ScanResults.structured badScan ∧
    (normalizeScanOutput (some badScan) "out" "" 0).criticalField = some 5 ∧
    severityTally "CRITICAL" ((normalizeScanOutput (some badScan) "out" "" 0).effFindings) = 1 ∧
    (5 : Nat) ≠ 1 := by
  refine ⟨rfl, rfl, by decide, by decide⟩

/-- Claim C5 (amended): structured scanner output is passed through
unchanged — counts are whatever the scanner reported, even when they
disagree with the findings' severity tally, and the request is not
failed; re-normalization is trivially idempotent because normalization is
the identity on structured values. -/
theorem C5_passthrough_amended (p : ParsedScan) (stdout stderr : String) (exitCode : Int) :
    normalizeScanOutput (some p) stdout stderr exitCode = ScanResults.structured p ∧
    (normalizeScanOutput (some p) stdout stderr exitCode).criticalField =
      p.summary.map ScanSummary.critical ∧
    (normalizeScanOutput (some p) stdout stderr exitCode).findingsField = p.findings :=
  ⟨rfl, rfl, rfl⟩

/-- Attaching or skipping a fix suggestion leaves every other finding
field unchanged. -/
theorem applyFix_core (f : Finding) (o : Option String) : (applyFix f o).core = f.core := by
  cases o <;> rfl

/-- The enrichment loop preserves the findings count. -/
theorem enrichFrom_length (ai : Nat → Option String) (n : Nat) (fs : List Finding) :
    (enrichFrom ai n fs).length = fs.length := by
  induction fs generalizing n with
  | nil => rfl
  | cons f fs ih => simp [enrichFrom, ih]

/-- The enrichment loop preserves, position by position, every finding
field other than `fixSuggestion`. -/
theorem enrichFrom_get_core (ai : Nat → Option String) (n i : Nat) (fs : List Finding) :
    ((enrichFrom ai n fs).get? i).map Finding.core = (fs.get? i).map Finding.core := by
  induction fs generalizing n i with
  | nil => rfl
  | cons f fs ih =>
      cases i with
      | zero => simp [enrichFrom, applyFix_core]
      | succ j =>
          simpa [enrichFrom] using ih (n + 1) j

/-- Claim C6: for every findings list and every enrichment outcome
(success, per-finding failure, outer total failure, missing API key),
enrichment never changes the count or order of the findings and never
changes any existing finding field other than adding or omitting the fix
suggestion; the analysis is produced separately and an enrichment
failure never escapes as a request failure (both functions are total). -/
theorem C6_enrichment_frame (totalFailure : Bool) (apiKey : Option String)
    (ai : Nat → Option String) (fs : List Finding) :
    (generateFixSuggestions totalFailure apiKey ai fs).length = fs.length ∧
    (∀ i, ((generateFixSuggestions totalFailure apiKey ai fs).get? i).map Finding.core =
      (fs.get? i).map Finding.core) ∧
    (∀ reply, (enrichScan totalFailure apiKey ai reply fs).findings =
      generateFixSuggestions totalFailure apiKey ai fs) := by
  refine ⟨?_, ?_, fun _ => rfl⟩
  · cases totalFailure with
    | true => rfl
    | false =>
        cases apiKey with
        | none => rfl
        | some k => exact enrichFrom_length ai 0 fs
  · intro i
    cases totalFailure with
    | true => rfl
    | false =>
        cases apiKey with
        | none => rfl
        | some k => exact enrichFrom_get_core ai 0 i fs

/-- Claim C7, counterexample: if the awaited `getCachedGuidelines()` call
fails, the scan-upload handler responds 500 (`Scan failed`) — no report
is produced, and in particular no report with guidelines absent. -/
theorem C7_counterexample :
    scanUploadHandler none "raw scanner text" "" 1
        (Except.error "UpstreamUnavailable") ⟨none, none⟩ =
      (ScanResp.err "Scan failed" "UpstreamUnavailable", ⟨none, none⟩) ∧
    scanRespGuidelines (scanUploadHandler none "raw scanner text" "" 1
        (Except.error "UpstreamUnavailable") ⟨none, none⟩).1 = none ∧
    scanRespResults (scanUploadHandler none "raw scanner text" "" 1
        (Except.error "UpstreamUnavailable") ⟨none, none⟩).1 = none :=
  ⟨rfl, rfl, rfl⟩

/-- Claim C7 (amended): every successful scan response includes the
guidelines obtained from `getCachedGuidelines()`; a failure of that call
lands in the handler's catch block, which responds 500 `Scan failed`
rather than producing a report with guidelines absent.  In the composed
program the call never fails — the fetcher is total — so every scan
response is a report carrying a non-stale, nonempty guidelines document
together with the normalized scan results. -/
theorem C7_guidelines_amended (parsed : Option ParsedScan) (stdout stderr : String)
    (exitCode : Int) (st : CacheState) :
    (∀ e, scanUploadHandler parsed stdout stderr exitCode (Except.error e) st =
        (ScanResp.err "Scan failed" e, st)) ∧
    (∀ now tFetch http, CacheState.WF st →
        (scanRespGuidelines
            (scanUploadHandlerReal parsed stdout stderr exitCode st now tFetch http).1).map
          (fun d => (d.stale, d.sections.isEmpty)) = some (false, false) ∧
        scanRespResults
            (scanUploadHandlerReal parsed stdout stderr exitCode st now tFetch http).1 =
          some (normalizeScanOutput parsed stdout stderr exitCode)) := by
  refine ⟨fun _ => rfl, ?_⟩
  intro now tFetch http hwf
  obtain ⟨d, st2, heq, h1, h2⟩ := getReal_ok_exists st now tFetch http hwf
  constructor
  · simp [scanUploadHandlerReal, scanUploadHandler, heq, scanRespGuidelines, h1,
      isEmpty_false_of_ne_nil d.sections h2]
  · simp [scanUploadHandlerReal, scanUploadHandler, heq, scanRespResults]

/-- Claim C7 amended, witness: over the empty cache with a failing
outbound fetch, the scan response still carries a non-stale nonempty
guidelines document and the normalized results. -/
theorem C7_guidelines_amended_witness :
    (scanRespGuidelines
        (scanUploadHandlerReal none "raw" "" 1 ⟨none, none⟩ 9 7
          (Except.error "netfail")).1).map
      (fun d => (d.stale, d.sections.isEmpty)) = some (false, false) ∧
    scanRespResults
        (scanUploadHandlerReal none "raw" "" 1 ⟨none, none⟩ 9 7
          (Except.error "netfail")).1 =
      some (normalizeScanOutput none "raw" "" 1) :=
  (C7_guidelines_amended none "raw" "" 1 ⟨none, none⟩).2 9 7 (Except.error "netfail")
    (by intro d hd; cases hd)

/-- One step of the findings layout preserves the page-height invariant:
the cursor-only check guarantees every block starts at a cursor of at
most 700. -/
theorem layoutInv_step (st : PageState Nat) (b : Nat) (h : layoutInv st) :
    layoutInv (pushBlock b b (checkBreak 700 st)) := by
  obtain ⟨hy, hcur, hpages⟩ := h
  unfold checkBreak
  split
  · refine ⟨?_, ?_, ?_⟩
    · simp [pushBlock, breakPage]
    · simp [pushBlock, breakPage, pageOkHeights]
    · intro p hp
      simp only [pushBlock, breakPage, List.mem_append, List.mem_singleton] at hp
      rcases hp with hp | hp
      · exact hpages p hp
      · subst hp; exact hcur
  · rename_i hgt
    have hle : st.y ≤ 700 := Nat.le_of_not_lt hgt
    refine ⟨?_, ?_, ?_⟩
    · simp [pushBlock, hy]
      omega
    · simp only [pushBlock, pageOkHeights, List.dropLast_concat]
      omega
    · intro p hp
      simp only [pushBlock] at hp
      exact hpages p hp

/-- The whole findings layout preserves the page-height invariant. -/
theorem layoutInv_layout (bs : List Nat) (st : PageState Nat) (h : layoutInv st) :
    layoutInv (layoutChecked 700 (fun x => x) st bs) := by
  induction bs generalizing st with
  | nil => exact h
  | cons b bs ih => exact ih _ (layoutInv_step st b h)

/-- Claim C1 (amended): before placing a block the renderer checks only
whether the cursor already exceeds 700 — not `cursor + blockHeight`
against the limit — so a page's summed block heights may exceed the
limit even when no single block's height does.  What does hold is the
weaker bound this check enforces: on every page (completed or current),
the blocks before the last one sum to at most 650 units, i.e. a page
overflows the 700-unit threshold by at most the height of its final
block. -/
theorem C1_pagination_amended (hs : List Nat) (st : PageState Nat) (hinv : layoutInv st) :
    ∀ p ∈ (layoutChecked 700 (fun x => x) st hs).pages ++
        [(layoutChecked 700 (fun x => x) st hs).cur],
      50 + p.dropLast.sum ≤ 700 := by
  intro p hp
  obtain ⟨-, hcur, hpages⟩ := layoutInv_layout hs st hinv
  rcases List.mem_append.mp hp with h | h
  · exact hpages p h
  · have : p = (layoutChecked 700 (fun x => x) st hs).cur := List.mem_singleton.mp h
    subst this
    exact hcur

/-- Claim C1 amended, witness at a fresh page and three 300-unit blocks. -/
theorem C1_pagination_amended_witness :
    50 + ([300, 300, 300] : List Nat).dropLast.sum ≤ 700 :=
  C1_pagination_amended [300, 300, 300] { pages := [], cur := [], y := 50 }
    (by refine ⟨rfl, by norm_num [pageOkHeights], ?_⟩; intro p hp; cases hp)
    [300, 300, 300] (by decide)

/-- Claim C1, counterexample: from a fresh page, three blocks of height
300 (each far below the 700-unit limit) all land on the same page, whose
summed height 900 exceeds 700 — the code's cursor-only check
(`y > 700`) does not compare `cursor + blockHeight` against the limit. -/
theorem C1_counterexample :
    (layoutChecked 700 (fun x => x) { pages := [], cur := [], y := 50 }
        [300, 300, 300]).pages = [] ∧
    (layoutChecked 700 (fun x => x) { pages := [], cur := [], y := 50 }
        [300, 300, 300]).cur = [300, 300, 300] ∧
    (300 : Nat) ≤ 700 ∧
    ([300, 300, 300] : List Nat).sum = 900 ∧
    700 < 900 := by decide

/-- Claim C8, counterexample: an interleaving of two miss-triggered
fills, both entering on an empty cache, where the later-starting one
completes first.  Event times are monotone (real time moves forward),
yet the successively stored `cacheTimestamp` values are 2000 then 1000 —
the stored timestamp regresses, because the miss path stores the `now`
captured at entry, before the awaited fetch. -/
theorem C8_counterexample :
    isMonotoneNat (ceTrace.map evTime) = true ∧
    (runTrace ⟨none, [], []⟩ ceTrace).stores = [2000, 1000] ∧
    isMonotoneNat [2000, 1000] = false := by decide

/-- One atomic (non-overlapping) cache operation never regresses the
stored timestamp and never stores beyond its own clock reading. -/
theorem applyCall_ts (st : CacheState) (c : CacheCall) (t : Nat)
    (hts : st.cacheTimestamp = some t) (hle : t ≤ callNow c) :
    ∃ u, (applyCall st c).cacheTimestamp = some u ∧ t ≤ u ∧ u ≤ callNow c := by
  obtain ⟨gc, ct⟩ := st
  cases c with
  | getCall now fr =>
      simp only [callNow] at hle
      cases gc with
      | none =>
          cases fr with
          | ok doc => exact ⟨now, rfl, hle, le_refl now⟩
          | error e =>
              refine ⟨t, ?_, le_refl t, hle⟩
              simpa [applyCall, getCachedGuidelines, cacheMissFill] using hts
      | some doc =>
          cases ct with
          | none =>
              cases hts
          | some ts =>
              have hts2 : ts = t := by injection hts
              subst hts2
              by_cases hf : now - ts < CACHE_DURATION
              · refine ⟨ts, ?_, le_refl ts, hle⟩
                simp [applyCall, getCachedGuidelines, hf]
              · cases fr with
                | ok doc2 =>
                    refine ⟨now, ?_, hle, le_refl now⟩
                    simp [applyCall, getCachedGuidelines, hf, cacheMissFill]
                | error e =>
                    refine ⟨ts, ?_, le_refl ts, hle⟩
                    simp [applyCall, getCachedGuidelines, hf, cacheMissFill]
  | refreshCall now fr =>
      simp only [callNow] at hle
      cases fr with
      | ok doc => exact ⟨now, rfl, hle, le_refl now⟩
      | error e =>
          refine ⟨t, ?_, le_refl t, hle⟩
          simpa [applyCall, refreshHandler] using hts

/-- Lower bounds on monotone call sequences can be weakened. -/
theorem monotoneCalls_mono (a b : Nat) (cs : List CacheCall) (hab : a ≤ b)
    (h : monotoneCalls b cs) : monotoneCalls a cs := by
  cases cs with
  | nil => trivial
  | cons c cs => exact ⟨le_trans hab h.1, h.2⟩

/-- Claim C8 (amended): across any sequence of successive
*non-overlapping* cache fills (each `getCachedGuidelines` or refresh
call completing before the next begins) under a monotone clock, the
stored `cacheTimestamp` never regresses: the final stored value is at
least the initial one, and by instantiation at every prefix each newly
stored value is at least every previously stored one.  The claim as
stated — over *any* interleaving — fails, because an in-flight miss fill
stores the `now` it captured before awaiting the fetch (see the
counterexample). -/
theorem C8_monotone_amended (cs : List CacheCall) (st : CacheState) (t : Nat)
    (hts : st.cacheTimestamp = some t) (hmono : monotoneCalls t cs) :
    ∃ u, (runCalls st cs).cacheTimestamp = some u ∧ t ≤ u := by
  induction cs generalizing st t with
  | nil => exact ⟨t, hts, le_refl t⟩
  | cons c cs ih =>
      obtain ⟨h1, h2⟩ := hmono
      obtain ⟨u, hu, htu, huc⟩ := applyCall_ts st c t hts h1
      obtain ⟨v, hv, huv⟩ := ih (applyCall st c) u hu (monotoneCalls_mono u (callNow c) cs huc h2)
      exact ⟨v, hv, le_trans htu huv⟩

/-- Claim C8 amended, witness: a sequential get-then-refresh run from a
500-stamped cache ends with a stored timestamp of at least 500. -/
theorem C8_monotone_amended_witness :
    500 ≤ ((runCalls ⟨some oldDoc, some 500⟩
        [CacheCall.getCall 1000 (Except.ok oldDoc),
         CacheCall.refreshCall 2000 (Except.ok oldDoc)]).cacheTimestamp).getD 0 := by
  obtain ⟨u, hu, hle⟩ := C8_monotone_amended
    [CacheCall.getCall 1000 (Except.ok oldDoc),
     CacheCall.refreshCall 2000 (Except.ok oldDoc)]
    ⟨some oldDoc, some 500⟩ 500 rfl
    ⟨by decide, by decide, trivial⟩
  rw [hu]
  simpa using hle

/-- Flattening a page list with one page appended appends that page's
blocks. -/
theorem flattenPages_concat {α : Type} (ps : List (List α)) (c : List α) :
    flattenPages (ps ++ [c]) = flattenPages ps ++ c := by
  induction ps with
  | nil => simp [flattenPages]
  | cons p ps ih => simp [flattenPages, ih]

/-- Drawing a block appends it to the flattened block sequence. -/
theorem flatBlocks_pushBlock {α : Type} (b : α) (h : Nat) (st : PageState α) :
    flatBlocks (pushBlock b h st) = flatBlocks st ++ [b] := by
  simp [flatBlocks, pushBlock]

/-- Opening a new page leaves the flattened block sequence unchanged. -/
theorem flatBlocks_breakPage {α : Type} (st : PageState α) :
    flatBlocks (breakPage st) = flatBlocks st := by
  simp [flatBlocks, breakPage, flattenPages_concat, flattenPages]

/-- The closing footer step — `doc.addPage()` then the fixed footer
block — appends exactly the footer block. -/
theorem flatBlocks_footer {α : Type} (st : PageState α) (b : α) (y2 : Nat) :
    flatBlocks { pages := (breakPage st).pages, cur := [b], y := y2 } =
      flatBlocks st ++ [b] := by
  simp [flatBlocks, breakPage, flattenPages_concat]

/-- The cursor-only page-break check leaves the flattened block sequence
unchanged. -/
theorem flatBlocks_checkBreak {α : Type} (limit : Nat) (st : PageState α) :
    flatBlocks (checkBreak limit st) = flatBlocks st := by
  unfold checkBreak
  split
  · exact flatBlocks_breakPage st
  · rfl

/-- A checked layout loop appends exactly its input blocks, in order, to
the flattened block sequence. -/
theorem flatBlocks_layoutChecked {α : Type} (limit : Nat) (height : α → Nat)
    (st : PageState α) (bs : List α) :
    flatBlocks (layoutChecked limit height st bs) = flatBlocks st ++ bs := by
  induction bs generalizing st with
  | nil => simp [layoutChecked]
  | cons b bs ih =>
      rw [layoutChecked, ih, flatBlocks_pushBlock, flatBlocks_checkBreak]
      simp

/-- Claim C9: rendering is order-preserving — the concatenation of all
pages' blocks, in page order, equals the document's blocks in document
order (no reordering, no duplication, no loss); in particular the
finding blocks appear exactly in the order of the scan's findings list,
with no severity sort. -/
theorem C9_render_order_preserving (descH fixH recH : String → Nat) (sr : ScanResults) :
    flatBlocks (renderPDF descH fixH recH sr) = docBlocks sr := by
  unfold renderPDF docBlocks
  cases hr : sr.riskLevelOf <;> cases hc : sr.recsOf <;>
    simp only [hr, hc] <;>
    simp only [flatBlocks_footer, flatBlocks_layoutChecked, flatBlocks_pushBlock,
      flatBlocks_checkBreak] <;>
    simp [flatBlocks, flattenPages]
